import Mathlib

/-!
Verification of the NANDA agent-bridge routing core
(`nanda_adapter/core/agent_bridge.py`).

Python strings are embedded as `List Char`; the Python string operations the
code uses (`split(sep)`, `split(sep, 1)`, `startswith`, `endswith`, `rstrip`,
slicing) are given as executable definitions below.  Module-level mutable
state and external collaborators (registry, Anthropic API, MCP client,
terminal/UI transports, the log file device) are an explicit `Env` record;
raising Python exceptions is `Except PyError`; observable side effects are
accumulated in a `List Effect`.
-/

namespace Nanda

/-- Python `str`, embedded as a list of characters. -/
abbrev Str := List Char

/-- Shorthand turning a Lean string literal into the embedding type. -/
def strL (s : String) : Str := s.data

/-- A single-quote character (kept out of literals). -/
def sqS : Str := [Char.ofNat 39]

/-- Python `s.startswith(p)`. -/
def pyStartswith : Str → Str → Bool
  | [], _ => true
  | _ :: _, [] => false
  | p :: ps, s :: ss => p == s && pyStartswith ps ss

/-- Python `s.endswith(p)`. -/
def pyEndswith (p s : Str) : Bool := pyStartswith p.reverse s.reverse

/-- Python `s.split(c, 1)`: the part before the first `c`, and — when `c`
occurs — `some` of the part after it. -/
def splitOnce (c : Char) : Str → Str × Option Str
  | [] => ([], none)
  | x :: xs =>
    if x = c then ([], some xs)
    else
      let r := splitOnce c xs
      (x :: r.1, r.2)

/-- Helper for `splitAll`: first chunk and remaining chunks. -/
def splitAllAux (c : Char) : Str → Str × List Str
  | [] => ([], [])
  | x :: xs =>
    let r := splitAllAux c xs
    if x = c then ([], r.1 :: r.2) else (x :: r.1, r.2)

/-- Python `s.split(c)` (always a non-empty list of chunks). -/
def splitAll (c : Char) (s : Str) : List Str :=
  (splitAllAux c s).1 :: (splitAllAux c s).2

/-- The characters Python `str.rstrip()` removes (ASCII whitespace). -/
def isPySpace (c : Char) : Bool :=
  c = ' ' || c = '\t' || c = '\n' || c = '\r' || c = Char.ofNat 11 || c = Char.ofNat 12

/-- Python `s.rstrip()`. -/
def rstrip (s : Str) : Str := (s.reverse.dropWhile isPySpace).reverse

/-- Python `str(x)` on an optional string (`None` prints as `None`). -/
def pyShowOpt : Option Str → Str
  | some s => s
  | none => strL "None"

/-! ## Envelope wire constants (agent_bridge.py lines 320, 465-488) -/

def startMarker : Str := strL "__EXTERNAL_MESSAGE__"
def fromPfx : Str := strL "__FROM_AGENT__"
def toPfx : Str := strL "__TO_AGENT__"
def msgStart : Str := strL "__MESSAGE_START__"
def msgEnd : Str := strL "__MESSAGE_END__"

/-- The envelope text built in `send_to_agent` (line 320):
`f"__EXTERNAL_MESSAGE__\n__FROM_AGENT__{agent_id}\n__TO_AGENT__{target}\n__MESSAGE_START__\n{message_text}\n__MESSAGE_END__"`. -/
def encode (fromA toA body : Str) : Str :=
  startMarker ++ ['\n'] ++ fromPfx ++ fromA ++ ['\n'] ++ toPfx ++ toA ++ ['\n'] ++
    msgStart ++ ['\n'] ++ body ++ ['\n'] ++ msgEnd

/-- Parser state of the header/body loop in `handle_external_message`
(lines 469-485): `from_agent`, `to_agent`, `in_message`, accumulated body. -/
structure DecodeState where
  fromA : Option Str
  toA : Option Str
  inMessage : Bool
  content : Str
deriving DecidableEq, Repr

/-- One iteration of the `for line in lines[1:]` loop (lines 475-485). -/
def decodeStep (st : DecodeState) (line : Str) : DecodeState :=
  if pyStartswith fromPfx line then { st with fromA := some (line.drop fromPfx.length) }
  else if pyStartswith toPfx line then { st with toA := some (line.drop toPfx.length) }
  else if line = msgStart then { st with inMessage := true }
  else if line = msgEnd then { st with inMessage := false }
  else if st.inMessage then { st with content := st.content ++ line ++ ['\n'] }
  else st

/-- The line-level part of the decoder: first line must equal the start
marker, the remaining lines are scanned by `decodeStep`. -/
def decodeLines : List Str → Option (Option Str × Option Str × Str)
  | [] => none
  | l0 :: rest =>
    if l0 = startMarker then
      let st := rest.foldl decodeStep ⟨none, none, false, []⟩
      some (st.fromA, st.toA, rstrip st.content)
    else none

/-- Envelope decoding as performed by `handle_external_message`
(lines 462-488): `None` unless the first line is the start marker; otherwise
the scanned `from`/`to` fields and the accumulated body after `rstrip()`. -/
def decodeEnvelope (text : Str) : Option (Option Str × Option Str × Str) :=
  decodeLines (splitAll '\n' text)

/-- `'\n'`-joined chunks, each chunk followed by one newline (the shape the
decoder's `message_content += line + '\n'` accumulates). -/
def joinNL : List Str → Str
  | [] => []
  | l :: ls => l ++ '\n' :: joinNL ls

/-! ## Data model (python_a2a `Message` as used by the bridge) -/

/-- python_a2a message content.  Only `TextContent` has a `text` attribute;
`ErrorContent` has `message`; the remaining content kinds (function call /
function response) are collapsed into one constructor. -/
inductive Content where
  | textContent (text : Str)
  | errorContent (message : Str)
  | otherContent
deriving DecidableEq, Repr

/-- `msg.content.text` — Python attribute access, which raises
`AttributeError` when the content class has no `text` attribute. -/
def contentText : Content → Option Str
  | .textContent t => some t
  | _ => none

/-- `isinstance(msg.content, TextContent)`. -/
def isTextContentB : Content → Bool
  | .textContent _ => true
  | _ => false

inductive Role where
  | user
  | agent
deriving DecidableEq, Repr

/-- The metadata custom fields the router reads (lines 652-657), each with
the default its `metadata.get(key, default)` call supplies. -/
structure Metadata where
  path : Str := []
  source_agent : Str := []
  is_from_peer : Bool := false
  is_external : Bool := false
  from_agent_id : Str := strL "unknown"
  additional_context : Str := []
deriving DecidableEq, Repr

instance : Inhabited Metadata := ⟨{}⟩

structure Message where
  message_id : Str
  role : Role
  content : Content
  conversation_id : Option Str
  parent_message_id : Option Str
  metadata : Metadata
deriving DecidableEq, Repr

/-- Reply construction: every reply the bridge builds passes the inbound
message id as `parent_message_id` and the computed conversation id.  The
reply's own `message_id` is generated by the python_a2a library; it is
irrelevant to every routed behaviour and embedded as the empty string. -/
def mkReply (role : Role) (content : Content) (parent conv : Str) : Message :=
  { message_id := [], role := role, content := content,
    conversation_id := some conv, parent_message_id := some parent,
    metadata := default }

/-- `conversation_id = msg.conversation_id or str(uuid.uuid4())` (line 632):
Python `or` treats both `None` and the empty string as absent. -/
def pyConvId : Option Str → Str → Str
  | some c, fresh => if c = [] then fresh else c
  | none, fresh => fresh

/-- Observable side effects of one `handle_message` call. -/
inductive Effect where
  | logWrite (conv path source text : Str)
  | uiSend (text : Str) (fromA : Option Str) (conv : Str)
  | terminalSend (text : Str)
  | agentDeliver (url envelope conv : Str)
  | toolInvoke (query url : Str)
  | claudeCall (prompt : Str)
deriving DecidableEq, Repr

/-- Python exceptions that can escape `handle_message`. -/
inductive PyError where
  | attributeError
  | ioError
deriving DecidableEq, Repr

/-- Module state and external collaborators, made explicit.  Functions model
the collaborator wrappers exactly as strong as their Python contracts:
`lookup_agent`, `get_mcp_server_url`, `call_claude` never raise and signal
failure with `None`; `run_mcp_query` catches internally and always returns
text; the improver registry is the module dict `message_improvement_decorators`
whose entries may raise (`none`). -/
structure Env where
  agent_id : Str
  ui_mode : Bool
  improve_messages : Bool
  smithery_env : Option Str
  lookup_agent : Str → Option Str
  get_mcp_server : Str → Str → Option (Str × Str × Str)
  encodeConfig : Str → Str
  run_mcp_query : Str → Str → Str
  call_claude : Str → Str → Option Str → Option Str
  improvers : List (Str × (Str → Option Str))
  fresh_uuid : Str
  log_fails : Bool
  terminal_setup_fails : Bool
  agent_deliver_fails : Bool
  exc_text : Str

/-- Per-instance bridge state (`self.active_improver`, line 597). -/
structure Bridge where
  active_improver : Str
deriving DecidableEq, Repr

/-! ## Embedded functions -/

/-- `SMITHERY_API_KEY = os.getenv("SMITHERY_API_KEY") or "bfcb8cec-..."`
(line 61): the hardcoded fallback used when the variable is unset or empty. -/
def smitheryFallback : Str := strL "bfcb8cec-9d56-4957-8156-bced0bfca532"

def SMITHERY_API_KEY (env : Env) : Str :=
  match env.smithery_env with
  | some k => if k = [] then smitheryFallback else k
  | none => smitheryFallback

/-- `form_mcp_server_url` (lines 398-425). -/
def form_mcp_server_url (env : Env) (url config registry_name : Str) : Option Str :=
  if registry_name = strL "smithery" then
    let key := SMITHERY_API_KEY env
    if key = [] then none
    else some (url ++ strL "?api_key=" ++ key ++ strL "&config=" ++ env.encodeConfig config)
  else some url

/-- `improve_message_direct` (lines 615-628): look up the active improver in
the registry dict; apply it, falling back to the unchanged text when the
improver raises; return the unchanged text when no improver is registered
under the active name. -/
def improve_message_direct (env : Env) (bridge : Bridge) (message_text : Str) : Str :=
  match env.improvers.lookup bridge.active_improver with
  | some f =>
    match f message_text with
    | some r => r
    | none => message_text
  | none => message_text

/-- `set_message_improver` (lines 599-607), returning the success flag and
the updated bridge. -/
def set_message_improver (env : Env) (bridge : Bridge) (improver_name : Str) :
    Bool × Bridge :=
  if (env.improvers.lookup improver_name).isSome then
    (true, { bridge with active_improver := improver_name })
  else
    (false, bridge)

/-- `send_to_agent` (lines 301-356): registry lookup, `/a2a` URL
normalization, envelope construction, delivery.  Returns the result string
(discarded by the caller) and the delivery effect. -/
def send_to_agent (env : Env) (target_agent_id message_text conversation_id : Str) :
    Str × List Effect :=
  match env.lookup_agent target_agent_id with
  | none => (strL "Agent " ++ target_agent_id ++ strL " not found in registry", [])
  | some agent_url =>
    let target_bridge_url :=
      if pyEndswith (strL "/a2a") agent_url then agent_url else agent_url ++ strL "/a2a"
    let formatted_message := encode env.agent_id target_agent_id message_text
    if env.agent_deliver_fails then
      (strL "Error sending message to " ++ target_agent_id ++ strL ": " ++ env.exc_text, [])
    else
      (strL "Message sent to " ++ target_agent_id,
       [.agentDeliver target_bridge_url formatted_message conversation_id])

/-- `handle_external_message` (lines 458-548): decode the envelope; `none`
when the first line is not the start marker; otherwise forward to the UI
client (UI mode) or to the local terminal and acknowledge to the sender. -/
def handle_external_message (env : Env) (msg_text conversation_id : Str)
    (msg : Message) : Option (Message × List Effect) :=
  match decodeEnvelope msg_text with
  | none => none
  | some (from_agent, _to_agent, message_content) =>
    let formatted_text := strL "FROM " ++ pyShowOpt from_agent ++ strL ": " ++ message_content
    if env.ui_mode then
      some (mkReply .agent (.textContent (strL "Message received by Agent " ++ env.agent_id))
              msg.message_id conversation_id,
            [.uiSend formatted_text from_agent conversation_id])
    else if env.terminal_setup_fails then
      some (mkReply .agent (.errorContent (strL "Failed to deliver message: " ++ env.exc_text))
              msg.message_id conversation_id, [])
    else
      some (mkReply .agent (.textContent (strL "Message received by Agent " ++ env.agent_id))
              msg.message_id conversation_id,
            [.terminalSend formatted_text])

/-- The `#registry:server query` dispatch body (lines 743-775). -/
def mcpBranch (env : Env) (requested_registry mcp_server_to_call query conversation_id parent : Str) :
    Message × List Effect :=
  match env.get_mcp_server requested_registry mcp_server_to_call with
  | none =>
    (mkReply .agent (.textContent (strL "[AGENT " ++ env.agent_id ++ strL "] MCP server " ++
        sqS ++ mcp_server_to_call ++ sqS ++
        strL " not found in registry. Please check the server name and try again."))
       parent conversation_id, [])
  | some (mcp_server_url, config_details, registry_name) =>
    match form_mcp_server_url env mcp_server_url config_details registry_name with
    | none =>
      (mkReply .agent (.textContent (strL "[AGENT " ++ env.agent_id ++
          strL "] Ensure the required API key for registery is in env file"))
         parent conversation_id, [])
    | some mcp_server_final_url =>
      (mkReply .agent (.textContent (env.run_mcp_query query mcp_server_final_url))
         parent conversation_id,
       [.toolInvoke query mcp_server_final_url])

/-- The `/help` and unknown-command listings (lines 804-808 and 856-860),
with the literal indentation of the Python triple-quoted strings. -/
def helpBody : Str :=
  strL "/help - Show this help message\n                        /quit - Exit the terminal\n                        /query [message] - Get a response from the agent privately\n                        @<agent_id> [message] - Send a message to a specific agent"

def helpText : Str := strL "Available commands:\n                        " ++ helpBody

def unknownCmdText : Str :=
  strL "Unknown command. Available commands:\n                        " ++ helpBody

/-- The `/query` system prompt (lines 823-824). -/
def querySystemPrompt : Str :=
  strL "You are Claude, an AI assistant. Provide a direct, helpful response to the user" ++
  sqS ++ strL "s question. Treat it as a private request for guidance and respond only to the user."

/-- `"Sorry, I couldn't process your query. Please try again."` (line 829). -/
def apologyText : Str :=
  strL "Sorry, I couldn" ++ sqS ++ strL "t process your query. Please try again."

/-- The `@`-command usage error text (line 729). -/
def usageAtText (agent_id : Str) : Str :=
  strL "[AGENT " ++ agent_id ++ strL "] Invalid format. Use " ++
    sqS ++ strL "@agent_id message" ++ sqS ++ strL " to send a message."

/-- The `#`-command usage error text (line 781). -/
def usageHashText (agent_id : Str) : Str :=
  strL "[AGENT " ++ agent_id ++ strL "] Invalid format. Use " ++
    sqS ++ strL "#registry_provider:mcp_server_name query" ++ sqS ++
    strL " to send a query to an MCP server."

/-- Lines 691-879: the local-terminal routing (log, then `@` / `#` / `/` /
default dispatch).  The unguarded `log_message` calls raise on I/O failure. -/
def routeLocal (env : Env) (bridge : Bridge) (msg : Message)
    (conversation_id current_path user_text : Str) :
    Except PyError (Message × List Effect) :=
  if env.log_fails then .error .ioError else
  let eff1 : List Effect :=
    [.logWrite conversation_id current_path
       (strL "Local user to Agent " ++ env.agent_id) user_text]
  if pyStartswith (strL "@") user_text then
    match splitOnce ' ' user_text with
    | (p0, some message_text0) =>
      let target_agent := p0.drop 1
      if env.improve_messages then
        let message_text := improve_message_direct env bridge message_text0
        if env.log_fails then .error .ioError
        else
          .ok (mkReply .agent
                 (.textContent (strL "[AGENT " ++ env.agent_id ++ strL "]: " ++ message_text))
                 msg.message_id conversation_id,
               eff1 ++
                 [.logWrite conversation_id current_path (strL "Claude " ++ env.agent_id)
                    message_text] ++
                 (send_to_agent env target_agent message_text conversation_id).2)
      else
        .ok (mkReply .agent
               (.textContent (strL "[AGENT " ++ env.agent_id ++ strL "]: " ++ message_text0))
               msg.message_id conversation_id,
             eff1 ++ (send_to_agent env target_agent message_text0 conversation_id).2)
    | (_, none) =>
      .ok (mkReply .agent (.textContent (usageAtText env.agent_id))
             msg.message_id conversation_id, eff1)
  else if pyStartswith (strL "#") user_text then
    match splitOnce ' ' user_text with
    | (p0, some query) =>
      match splitOnce ':' (p0.drop 1) with
      | (requested_registry, some mcp_server_to_call) =>
        .ok ((mcpBranch env requested_registry mcp_server_to_call query
                conversation_id msg.message_id).1,
             eff1 ++ (mcpBranch env requested_registry mcp_server_to_call query
                conversation_id msg.message_id).2)
      | (_, none) =>
        .ok (mkReply .agent (.textContent (usageHashText env.agent_id))
               msg.message_id conversation_id, eff1)
    | (_, none) =>
      .ok (mkReply .agent (.textContent (usageHashText env.agent_id))
             msg.message_id conversation_id, eff1)
  else if pyStartswith (strL "/") user_text then
    let parts := splitOnce ' ' user_text
    let command := parts.1.drop 1
    if command = strL "quit" then
      .ok (mkReply .agent (.textContent (strL "[AGENT " ++ env.agent_id ++
             strL "] Exiting session...")) msg.message_id conversation_id, eff1)
    else if command = strL "help" then
      .ok (mkReply .agent (.textContent (strL "[AGENT " ++ env.agent_id ++ strL "] " ++ helpText))
             msg.message_id conversation_id, eff1)
    else if command = strL "query" then
      match parts.2 with
      | some query_text =>
        let claude_response :=
          match env.call_claude query_text msg.metadata.additional_context
                  (some querySystemPrompt) with
          | some r => if r = [] then apologyText else r
          | none => apologyText
        .ok (mkReply .agent
               (.textContent (strL "[AGENT " ++ env.agent_id ++ strL "] " ++ claude_response))
               msg.message_id conversation_id,
             eff1 ++ [.claudeCall query_text])
      | none =>
        .ok (mkReply .agent (.textContent (strL "[AGENT " ++ env.agent_id ++
               strL "] Please provide a query after the /query command."))
               msg.message_id conversation_id, eff1)
    else
      .ok (mkReply .agent (.textContent (strL "[AGENT " ++ env.agent_id ++ strL "] " ++
             unknownCmdText)) msg.message_id conversation_id, eff1)
  else
    let claude_response :=
      match env.call_claude user_text msg.metadata.additional_context none with
      | some r => if r = [] then user_text else r
      | none => user_text
    .ok (mkReply .agent
           (.textContent (strL "[AGENT " ++ env.agent_id ++ strL "] " ++ claude_response))
           msg.message_id conversation_id,
         eff1 ++ [.claudeCall user_text])

/-- `current_path = path + ('>' if path else '') + agent_id` (line 661). -/
def currentPath (env : Env) (msg : Message) : Str :=
  msg.metadata.path ++ (if msg.metadata.path = [] then [] else strL ">") ++ env.agent_id

/-- Lines 680-690: peer-acknowledgment passthrough, then local routing. -/
def postExternal (env : Env) (bridge : Bridge) (msg : Message)
    (conversation_id current_path user_text : Str) :
    Except PyError (Message × List Effect) :=
  if msg.metadata.is_from_peer then
    .ok (mkReply .agent (.textContent (strL "Message from peer received"))
           msg.message_id conversation_id, [])
  else
    routeLocal env bridge msg conversation_id current_path user_text

/-- `AgentBridge.handle_message` (lines 630-879).  Faithful to the source
order: the conversation id, then the attribute access `msg.content.text`
(line 639, which raises on non-text content), the path extension, the
(unreachable) non-text guard of line 665, the external-envelope check, the
peer-ack passthrough, and the local-terminal routing. -/
def handle_message (env : Env) (bridge : Bridge) (msg : Message) :
    Except PyError (Message × List Effect) :=
  let conversation_id := pyConvId msg.conversation_id env.fresh_uuid
  match contentText msg.content with
  | none => .error .attributeError
  | some user_text =>
    let current_path := currentPath env msg
    if isTextContentB msg.content = false then
      .ok (mkReply .agent (.errorContent (strL "Only text payloads supported."))
             msg.message_id conversation_id, [])
    else if pyStartswith startMarker user_text then
      match handle_external_message env user_text conversation_id msg with
      | some r => .ok r
      | none => postExternal env bridge msg conversation_id current_path user_text
    else
      postExternal env bridge msg conversation_id current_path user_text

/-! ## Concrete fixtures for witnesses and counterexamples -/

/-- A concrete environment: agent `default`, UI mode on, improvement on,
`SMITHERY_API_KEY` unset, empty registry, failing text generation, an
identity improver registered under `default_claude`, healthy log device. -/
def env0 : Env :=
  { agent_id := strL "default"
    ui_mode := true
    improve_messages := true
    smithery_env := none
    lookup_agent := fun _ => none
    get_mcp_server := fun _ _ => none
    encodeConfig := fun s => s
    run_mcp_query := fun _ _ => strL "TOOLRESULT"
    call_claude := fun _ _ _ => none
    improvers := [(strL "default_claude", fun t => some t)]
    fresh_uuid := strL "uuid-1"
    log_fails := false
    terminal_setup_fails := false
    agent_deliver_fails := false
    exc_text := [] }

/-- The bridge as `__init__` leaves it (line 597). -/
def bridge0 : Bridge := { active_improver := strL "default_claude" }

/-- A local-terminal inbound message carrying the given text. -/
def mkLocalMsg (text : String) : Message :=
  { message_id := strL "m1", role := .user, content := .textContent (strL text),
    conversation_id := some (strL "c1"), parent_message_id := none,
    metadata := default }

/-- An environment whose only registered improver always raises. -/
def envBoom : Env := { env0 with improvers := [(strL "default_claude", fun _ => none)] }

/-- An environment resolving every tool query to a smithery endpoint, with
`SMITHERY_API_KEY` unset. -/
def env4 : Env :=
  { env0 with get_mcp_server := fun _ _ => some (strL "http://x", strL "cfg", strL "smithery") }

/-! ## String-operation lemmas -/

theorem pyStartswith_append_self (p s : Str) : pyStartswith p (p ++ s) = true := by
  induction p with
  | nil => rfl
  | cons a as ih => simp [pyStartswith, ih]

theorem splitOnce_not_mem (c : Char) (s : Str) (h : c ∉ s) : splitOnce c s = (s, none) := by
  induction s with
  | nil => rfl
  | cons x xs ih =>
    simp only [List.mem_cons, not_or] at h
    simp [splitOnce, Ne.symm h.1, ih h.2]

theorem splitOnce_append (c : Char) (a r : Str) (h : c ∉ a) :
    splitOnce c (a ++ c :: r) = (a, some r) := by
  induction a with
  | nil => simp [splitOnce]
  | cons x xs ih =>
    simp only [List.mem_cons, not_or] at h
    simp [splitOnce, Ne.symm h.1, ih h.2]

theorem splitAllAux_not_mem (c : Char) (s : Str) (h : c ∉ s) :
    splitAllAux c s = (s, []) := by
  induction s with
  | nil => rfl
  | cons x xs ih =>
    simp only [List.mem_cons, not_or] at h
    simp [splitAllAux, Ne.symm h.1, ih h.2]

theorem splitAllAux_append_cons (c : Char) (a b : Str) (h : c ∉ a) :
    splitAllAux c (a ++ c :: b) = (a, (splitAllAux c b).1 :: (splitAllAux c b).2) := by
  induction a with
  | nil => simp [splitAllAux]
  | cons x xs ih =>
    simp only [List.mem_cons, not_or] at h
    simp [splitAllAux, Ne.symm h.1, ih h.2]

theorem splitAllAux_append_last (c : Char) (b m : Str) (h : c ∉ m) :
    splitAllAux c (b ++ c :: m) = ((splitAllAux c b).1, (splitAllAux c b).2 ++ [m]) := by
  induction b with
  | nil => simp [splitAllAux, splitAllAux_not_mem c m h]
  | cons x xs ih =>
    by_cases hx : x = c
    · subst hx
      simp [splitAllAux, ih]
    · simp [splitAllAux, hx, ih]

theorem splitAll_append_cons (c : Char) (a b : Str) (h : c ∉ a) :
    splitAll c (a ++ c :: b) = a :: splitAll c b := by
  simp [splitAll, splitAllAux_append_cons c a b h]

theorem splitAll_append_last (c : Char) (b m : Str) (h : c ∉ m) :
    splitAll c (b ++ c :: m) = splitAll c b ++ [m] := by
  simp [splitAll, splitAllAux_append_last c b m h]

theorem joinNL_splitAllAux (s : Str) :
    (splitAllAux '\n' s).1 ++ '\n' :: joinNL (splitAllAux '\n' s).2 = s ++ ['\n'] := by
  induction s with
  | nil => rfl
  | cons x xs ih =>
    by_cases hx : x = '\n'
    · subst hx
      simp only [splitAllAux, if_pos rfl]
      simpa [joinNL] using ih
    · simp only [splitAllAux, if_neg hx]
      simpa using ih

theorem joinNL_splitAll (s : Str) : joinNL (splitAll '\n' s) = s ++ ['\n'] := by
  simpa [splitAll, joinNL] using joinNL_splitAllAux s

theorem splitAllAux_fst_prefix (c : Char) (s : Str) :
    ∃ u, s = (splitAllAux c s).1 ++ u := by
  induction s with
  | nil => exact ⟨[], rfl⟩
  | cons x xs ih =>
    obtain ⟨u, hu⟩ := ih
    by_cases hx : x = c
    · exact ⟨x :: xs, by simp [splitAllAux, hx]⟩
    · exact ⟨u, by simp [splitAllAux, hx]; exact hu⟩

theorem drop_len_append (p s : Str) : (p ++ s).drop p.length = s := by
  induction p with
  | nil => rfl
  | cons a as ih => simp [ih]

theorem rstrip_append_newline (s : Str) : rstrip (s ++ ['\n']) = rstrip s := by
  have h : isPySpace '\n' = true := by decide
  simp [rstrip, List.reverse_append, List.dropWhile_cons, h]

/-! ## Decoding an encoded envelope -/

theorem fromPfx_not_sw_toPfx (t : Str) : pyStartswith fromPfx (toPfx ++ t) = false := rfl

theorem splitAll_encode (f t b : Str) (hf : '\n' ∉ f) (ht : '\n' ∉ t) :
    splitAll '\n' (encode f t b) =
      startMarker :: (fromPfx ++ f) :: (toPfx ++ t) :: msgStart ::
        (splitAll '\n' b ++ [msgEnd]) := by
  have hform : encode f t b =
      startMarker ++ '\n' :: ((fromPfx ++ f) ++ '\n' :: ((toPfx ++ t) ++ '\n' ::
        (msgStart ++ '\n' :: (b ++ '\n' :: msgEnd)))) := by
    simp [encode, List.append_assoc]
  have h1 : '\n' ∉ fromPfx ++ f := by
    simp only [List.mem_append, not_or]
    exact ⟨by decide, hf⟩
  have h2 : '\n' ∉ toPfx ++ t := by
    simp only [List.mem_append, not_or]
    exact ⟨by decide, ht⟩
  rw [hform, splitAll_append_cons _ _ _ (by decide),
      splitAll_append_cons _ _ _ h1, splitAll_append_cons _ _ _ h2,
      splitAll_append_cons _ _ _ (by decide),
      splitAll_append_last _ _ _ (by decide)]

/-- A body line neither carrying a header prefix nor equal to a marker. -/
def plainLine (l : Str) : Prop :=
  pyStartswith fromPfx l = false ∧ pyStartswith toPfx l = false ∧
    l ≠ msgStart ∧ l ≠ msgEnd

instance (l : Str) : Decidable (plainLine l) := by
  unfold plainLine; infer_instance

theorem foldl_decodeStep_plain (f t : Str) (ls : List Str) (acc : Str)
    (h : ∀ l ∈ ls, plainLine l) :
    ls.foldl decodeStep ⟨some f, some t, true, acc⟩ =
      ⟨some f, some t, true, acc ++ joinNL ls⟩ := by
  induction ls generalizing acc with
  | nil => simp [joinNL]
  | cons l ls ih =>
    obtain ⟨h1, h2, h3, h4⟩ := h l (by simp)
    have hrest : ∀ x ∈ ls, plainLine x := fun x hx => h x (by simp [hx])
    simp only [List.foldl_cons, decodeStep, h1, h2, h3, h4, Bool.false_eq_true,
      if_false, if_neg h3, if_neg h4, if_pos rfl, if_true]
    rw [ih _ hrest]
    simp [joinNL, List.append_assoc]

theorem decodeStep_fromLine (st : DecodeState) (f : Str) :
    decodeStep st (fromPfx ++ f) = { st with fromA := some f } := by
  simp [decodeStep, pyStartswith_append_self, drop_len_append]

theorem decodeStep_toLine (st : DecodeState) (t : Str) :
    decodeStep st (toPfx ++ t) = { st with toA := some t } := by
  simp [decodeStep, fromPfx_not_sw_toPfx, pyStartswith_append_self, drop_len_append]

theorem decodeStep_msgStart (st : DecodeState) :
    decodeStep st msgStart = { st with inMessage := true } := by
  simp [decodeStep, (by decide : pyStartswith fromPfx msgStart = false),
    (by decide : pyStartswith toPfx msgStart = false)]

theorem decodeStep_msgEnd (st : DecodeState) :
    decodeStep st msgEnd = { st with inMessage := false } := by
  simp [decodeStep, (by decide : pyStartswith fromPfx msgEnd = false),
    (by decide : pyStartswith toPfx msgEnd = false),
    (by decide : msgEnd ≠ msgStart)]

/-- C3 (amended): decoding `encode f t b` recovers `from = f`, `to = t` and
body `rstrip b` — the decoder trims ALL trailing whitespace via `rstrip()`,
not exactly one trailing newline — provided `f` and `t` contain no newline
and no line of `b` starts with a header prefix or equals the start/end-of-body
marker.  The body round-trips exactly when `b` has no trailing whitespace. -/
theorem c3_roundtrip_amended (f t b : Str) (hf : '\n' ∉ f) (ht : '\n' ∉ t)
    (hb : ∀ l ∈ splitAll '\n' b, plainLine l) :
    decodeEnvelope (encode f t b) = some (some f, some t, rstrip b) := by
  rw [decodeEnvelope, splitAll_encode f t b hf ht]
  simp only [decodeLines, if_pos rfl, List.foldl_cons,
    decodeStep_fromLine, decodeStep_toLine, decodeStep_msgStart]
  rw [List.foldl_append, foldl_decodeStep_plain f t _ _ hb]
  simp only [List.foldl_cons, List.foldl_nil, decodeStep_msgEnd]
  simp [joinNL_splitAll, rstrip_append_newline]

/-! ## Router dispatch facts -/

theorem marker_not_sw_at (s : Str) : pyStartswith startMarker ('@' :: s) = false := rfl

theorem marker_not_sw_hash (s : Str) : pyStartswith startMarker ('#' :: s) = false := rfl

theorem at_sw_at (s : Str) : pyStartswith (strL "@") ('@' :: s) = true := by
  simp [strL, pyStartswith]

theorem hash_sw_hash (s : Str) : pyStartswith (strL "#") ('#' :: s) = true := by
  simp [strL, pyStartswith]

theorem at_not_sw_hash (s : Str) : pyStartswith (strL "@") ('#' :: s) = false := rfl

theorem marker_prefix_of_firstLine (t : Str) (rest : List Str)
    (h : splitAll '\n' t = startMarker :: rest) :
    pyStartswith startMarker t = true := by
  obtain ⟨u, hu⟩ := splitAllAux_fst_prefix '\n' t
  have h1 : (splitAllAux '\n' t).1 = startMarker := by
    have := congrArg List.head? h
    simpa [splitAll] using this
  rw [h1] at hu
  rw [hu]
  exact pyStartswith_append_self _ _

/-! ## Reply-shape lemmas (threading of parent and conversation ids) -/

theorem mcpBranch_shape (env : Env) (reg srv q conv pid : Str) :
    ∃ c, (mcpBranch env reg srv q conv pid).1 = mkReply .agent c pid conv := by
  cases h1 : env.get_mcp_server reg srv with
  | none =>
    simp only [mcpBranch, h1]
    exact ⟨_, rfl⟩
  | some x =>
    obtain ⟨url, cfg, rn⟩ := x
    cases h2 : form_mcp_server_url env url cfg rn with
    | none =>
      simp only [mcpBranch, h1, h2]
      exact ⟨_, rfl⟩
    | some fu =>
      simp only [mcpBranch, h1, h2]
      exact ⟨_, rfl⟩

theorem routeLocal_shape (env : Env) (bridge : Bridge) (msg : Message)
    (conv cp t : Str) (m : Message) (effs : List Effect)
    (h : routeLocal env bridge msg conv cp t = .ok (m, effs)) :
    ∃ c, m = mkReply .agent c msg.message_id conv := by
  unfold routeLocal at h
  repeat' (first | split at h | (simp only [] at h; split at h))
  all_goals simp only [Except.ok.injEq, Prod.mk.injEq, reduceCtorEq] at h
  all_goals first
    | exact ⟨_, h.1.symm⟩
    | (rw [← h.1]; exact mcpBranch_shape env _ _ _ conv msg.message_id)

theorem postExternal_shape (env : Env) (bridge : Bridge) (msg : Message)
    (conv cp t : Str) (m : Message) (effs : List Effect)
    (h : postExternal env bridge msg conv cp t = .ok (m, effs)) :
    ∃ c, m = mkReply .agent c msg.message_id conv := by
  unfold postExternal at h
  split at h
  · simp only [Except.ok.injEq, Prod.mk.injEq] at h
    exact ⟨_, h.1.symm⟩
  · exact routeLocal_shape env bridge msg conv cp t m effs h

theorem hem_shape (env : Env) (t conv : Str) (msg : Message)
    (m : Message) (effs : List Effect)
    (h : handle_external_message env t conv msg = some (m, effs)) :
    ∃ r c, m = mkReply r c msg.message_id conv := by
  unfold handle_external_message at h
  split at h
  · exact absurd h (by simp)
  · split_ifs at h <;>
      (simp only [Option.some.injEq, Prod.mk.injEq] at h; exact ⟨_, _, h.1.symm⟩)

/-! ## Claim theorems -/

/-- C3 counterexample: with body `"x "` (no line equals any marker), decoding
the encoded envelope yields body `"x"`, not `"x "`: `rstrip()` removed the
trailing space, so the decoder does not trim exactly one trailing newline
and the round-trip of the claim fails. -/
theorem c3_counterexample :
    decodeEnvelope (encode (strL "a") (strL "b") (strL "x ")) =
        some (some (strL "a"), some (strL "b"), strL "x") ∧
      strL "x" ≠ strL "x " := ⟨by decide, by decide⟩

/-- C3 witness: the amended round-trip at a concrete two-line body. -/
theorem c3_witness :
    decodeEnvelope (encode (strL "alice") (strL "bob") (strL "line1\nline2")) =
      some (some (strL "alice"), some (strL "bob"), rstrip (strL "line1\nline2")) :=
  c3_roundtrip_amended (strL "alice") (strL "bob") (strL "line1\nline2")
    (by decide) (by decide) (by decide)

/-- C1 (code bug): a message whose content is not text makes `handle_message`
raise `AttributeError` at `user_text = msg.content.text` (line 639), before
the non-text guard of line 665 can return the `"Only text payloads
supported."` error reply — an unhandled fault reaches the transport layer. -/
theorem c1_nontext_raises :
    handle_message env0 bridge0
        { mkLocalMsg "x" with content := .errorContent (strL "boom") } =
      .error .attributeError := rfl

/-- C7: `improve_message_direct` (the spec's `applyActive`) never raises and
returns the text unchanged both when the active improver name is not
registered and when the registered improver itself raises on the text. -/
theorem c7_applyActive_fail_open (env : Env) (bridge : Bridge) (text : Str) :
    (env.improvers.lookup bridge.active_improver = none →
      improve_message_direct env bridge text = text) ∧
    (∀ f, env.improvers.lookup bridge.active_improver = some f → f text = none →
      improve_message_direct env bridge text = text) := by
  constructor
  · intro h
    simp [improve_message_direct, h]
  · intro f hf hr
    simp [improve_message_direct, hf, hr]

/-- C7 witness: with an always-raising active improver,
`applyActive(bridge, "hello") == "hello"`. -/
theorem c7_witness :
    improve_message_direct envBoom bridge0 (strL "hello") = strL "hello" :=
  (c7_applyActive_fail_open envBoom bridge0 (strL "hello")).2 _ rfl rfl

/-- C8: `set_message_improver` with an unregistered name returns `false`,
leaves the bridge unchanged, and a subsequent `improve_message_direct`
behaves exactly as with the previous active improver. -/
theorem c8_setActive_unregistered (env : Env) (bridge : Bridge) (name : Str)
    (h : env.improvers.lookup name = none) :
    set_message_improver env bridge name = (false, bridge) ∧
    ∀ text, improve_message_direct env (set_message_improver env bridge name).2 text =
      improve_message_direct env bridge text := by
  have hmain : set_message_improver env bridge name = (false, bridge) := by
    simp [set_message_improver, h]
  exact ⟨hmain, fun text => by rw [hmain]⟩

/-- C8 witness at the name `"nonexistent"` against `env0`. -/
theorem c8_witness :
    set_message_improver env0 bridge0 (strL "nonexistent") = (false, bridge0) ∧
    improve_message_direct env0 (set_message_improver env0 bridge0 (strL "nonexistent")).2
        (strL "hi") =
      improve_message_direct env0 bridge0 (strL "hi") :=
  ⟨(c8_setActive_unregistered env0 bridge0 (strL "nonexistent") rfl).1,
   (c8_setActive_unregistered env0 bridge0 (strL "nonexistent") rfl).2 (strL "hi")⟩

/-- C4 (amended): with `SMITHERY_API_KEY` unset in the environment, the
hardcoded fallback key is substituted (line 61), so a resolving smithery tool
query forms the final URL around the fallback key and DOES invoke the tool;
the configuration-error reply is only reachable when the effective key is
empty, which the non-empty fallback precludes. -/
theorem c4_smithery_fallback (env : Env) (bridge : Bridge) (msg : Message)
    (srv q url cfg : Str)
    (hp : msg.metadata.is_from_peer = false) (hl : env.log_fails = false)
    (henv : env.smithery_env = none)
    (hc : msg.content = .textContent ('#' :: ((strL "smithery" ++ ':' :: srv) ++ ' ' :: q)))
    (hsrv : ' ' ∉ srv)
    (hres : env.get_mcp_server (strL "smithery") srv = some (url, cfg, strL "smithery")) :
    handle_message env bridge msg =
      .ok (mkReply .agent (.textContent (env.run_mcp_query q
             (url ++ strL "?api_key=" ++ smitheryFallback ++ strL "&config=" ++
               env.encodeConfig cfg)))
            msg.message_id (pyConvId msg.conversation_id env.fresh_uuid),
          [.logWrite (pyConvId msg.conversation_id env.fresh_uuid) (currentPath env msg)
             (strL "Local user to Agent " ++ env.agent_id)
             ('#' :: ((strL "smithery" ++ ':' :: srv) ++ ' ' :: q)),
           .toolInvoke q (url ++ strL "?api_key=" ++ smitheryFallback ++ strL "&config=" ++
             env.encodeConfig cfg)]) := by
  have hsp2 : ' ' ∉ ('#' :: (strL "smithery" ++ ':' :: srv)) := by
    simp only [List.mem_cons, List.mem_append, not_or]
    exact ⟨by decide, by decide, by decide, hsrv⟩
  have hsplit1 : splitOnce ' ' ('#' :: (strL "smithery" ++ ':' :: (srv ++ ' ' :: q))) =
      ('#' :: (strL "smithery" ++ ':' :: srv), some q) := by
    have h := splitOnce_append ' ' ('#' :: (strL "smithery" ++ ':' :: srv)) q hsp2
    simpa using h
  have hsplit2 : splitOnce ':' (strL "smithery" ++ ':' :: srv) = (strL "smithery", some srv) :=
    splitOnce_append ':' (strL "smithery") srv (by decide)
  have hkey : smitheryFallback ≠ [] := by decide
  simp [handle_message, hc, contentText, isTextContentB, marker_not_sw_hash,
    at_not_sw_hash, postExternal, hp, routeLocal, hl, hash_sw_hash, hsplit1, hsplit2,
    mcpBranch, hres, form_mcp_server_url, SMITHERY_API_KEY, henv, hkey]

/-- C4 counterexample: `SMITHERY_API_KEY` unset, yet the router answers the
smithery tool query with the tool result and a `toolInvoke` effect whose URL
embeds the hardcoded fallback key — not a configuration-error reply. -/
theorem c4_counterexample :
    handle_message env4 bridge0 (mkLocalMsg "#smithery:tool find cats") =
      .ok (mkReply .agent (.textContent (strL "TOOLRESULT")) (strL "m1") (strL "c1"),
        [.logWrite (strL "c1") (strL "default") (strL "Local user to Agent default")
           (strL "#smithery:tool find cats"),
         .toolInvoke (strL "find cats")
           (strL "http://x?api_key=bfcb8cec-9d56-4957-8156-bced0bfca532&config=cfg")]) := rfl

/-- C4 witness: the amended statement applied at `env4`. -/
theorem c4_witness :
    handle_message env4 bridge0 (mkLocalMsg "#smithery:tool find cats") =
      .ok (mkReply .agent (.textContent (env4.run_mcp_query (strL "find cats")
             (strL "http://x" ++ strL "?api_key=" ++ smitheryFallback ++ strL "&config=" ++
               env4.encodeConfig (strL "cfg"))))
            (strL "m1") (pyConvId (some (strL "c1")) env4.fresh_uuid),
          [.logWrite (pyConvId (some (strL "c1")) env4.fresh_uuid)
             (currentPath env4 (mkLocalMsg "#smithery:tool find cats"))
             (strL "Local user to Agent " ++ env4.agent_id)
             ('#' :: ((strL "smithery" ++ ':' :: strL "tool") ++ ' ' :: strL "find cats")),
           .toolInvoke (strL "find cats")
             (strL "http://x" ++ strL "?api_key=" ++ smitheryFallback ++ strL "&config=" ++
               env4.encodeConfig (strL "cfg"))]) :=
  c4_smithery_fallback env4 bridge0 (mkLocalMsg "#smithery:tool find cats")
    (strL "tool") (strL "find cats") (strL "http://x") (strL "cfg")
    rfl rfl rfl (by decide) (by decide) rfl

/-- C5 (amended): a `#` body is dispatched as a tool query exactly when it
contains a space and its first token contains at least one colon (not exactly
one): the provider is the text before the FIRST colon and the tool name is
everything after it, and an empty remainder after the space is still accepted
as an empty query.  Otherwise the usage-error reply is returned. -/
theorem c5_hash_classification (env : Env) (bridge : Bridge) (msg : Message)
    (hp : msg.metadata.is_from_peer = false) (hl : env.log_fails = false) :
    (∀ body, msg.content = .textContent ('#' :: body) → ' ' ∉ body →
      handle_message env bridge msg =
        .ok (mkReply .agent (.textContent (usageHashText env.agent_id))
              msg.message_id (pyConvId msg.conversation_id env.fresh_uuid),
            [.logWrite (pyConvId msg.conversation_id env.fresh_uuid) (currentPath env msg)
               (strL "Local user to Agent " ++ env.agent_id) ('#' :: body)])) ∧
    (∀ tok q, msg.content = .textContent ('#' :: (tok ++ ' ' :: q)) →
      ' ' ∉ tok → ':' ∉ tok →
      handle_message env bridge msg =
        .ok (mkReply .agent (.textContent (usageHashText env.agent_id))
              msg.message_id (pyConvId msg.conversation_id env.fresh_uuid),
            [.logWrite (pyConvId msg.conversation_id env.fresh_uuid) (currentPath env msg)
               (strL "Local user to Agent " ++ env.agent_id) ('#' :: (tok ++ ' ' :: q))])) ∧
    (∀ reg srv q, msg.content = .textContent ('#' :: ((reg ++ ':' :: srv) ++ ' ' :: q)) →
      ' ' ∉ reg → ' ' ∉ srv → ':' ∉ reg →
      handle_message env bridge msg =
        .ok ((mcpBranch env reg srv q (pyConvId msg.conversation_id env.fresh_uuid)
                msg.message_id).1,
             .logWrite (pyConvId msg.conversation_id env.fresh_uuid) (currentPath env msg)
               (strL "Local user to Agent " ++ env.agent_id)
               ('#' :: ((reg ++ ':' :: srv) ++ ' ' :: q)) ::
             (mcpBranch env reg srv q (pyConvId msg.conversation_id env.fresh_uuid)
                msg.message_id).2)) := by
  refine ⟨?_, ?_, ?_⟩
  · intro body hc hsp
    have hsp2 : ' ' ∉ ('#' :: body) := by
      simp only [List.mem_cons, not_or]
      exact ⟨by decide, hsp⟩
    have hsplit : splitOnce ' ' ('#' :: body) = ('#' :: body, none) :=
      splitOnce_not_mem ' ' ('#' :: body) hsp2
    simp [handle_message, hc, contentText, isTextContentB, marker_not_sw_hash,
      at_not_sw_hash, postExternal, hp, routeLocal, hl, hash_sw_hash, hsplit]
  · intro tok q hc hsp hcol
    have hsp2 : ' ' ∉ ('#' :: tok) := by
      simp only [List.mem_cons, not_or]
      exact ⟨by decide, hsp⟩
    have hsplit1 : splitOnce ' ' ('#' :: (tok ++ ' ' :: q)) = ('#' :: tok, some q) := by
      have h := splitOnce_append ' ' ('#' :: tok) q hsp2
      simpa using h
    have hsplit2 : splitOnce ':' tok = (tok, none) := splitOnce_not_mem ':' tok hcol
    simp [handle_message, hc, contentText, isTextContentB, marker_not_sw_hash,
      at_not_sw_hash, postExternal, hp, routeLocal, hl, hash_sw_hash, hsplit1, hsplit2]
  · intro reg srv q hc hsr hss hcol
    have hsp2 : ' ' ∉ ('#' :: (reg ++ ':' :: srv)) := by
      simp only [List.mem_cons, List.mem_append, not_or]
      exact ⟨by decide, hsr, by decide, hss⟩
    have hsplit1 : splitOnce ' ' ('#' :: (reg ++ ':' :: (srv ++ ' ' :: q))) =
        ('#' :: (reg ++ ':' :: srv), some q) := by
      have h := splitOnce_append ' ' ('#' :: (reg ++ ':' :: srv)) q hsp2
      simpa using h
    have hsplit2 : splitOnce ':' (reg ++ ':' :: srv) = (reg, some srv) :=
      splitOnce_append ':' reg srv hcol
    simp [handle_message, hc, contentText, isTextContentB, marker_not_sw_hash,
      at_not_sw_hash, postExternal, hp, routeLocal, hl, hash_sw_hash, hsplit1, hsplit2]

/-- C5 counterexample: the first token of `#a:b:c q` holds two colons, yet
the router treats it as a tool query for provider `a` and tool `b:c` (here:
the not-found reply of the tool path), not as the usage-error reply the claim
requires for two or more colons. -/
theorem c5_counterexample :
    (handle_message env0 bridge0 (mkLocalMsg "#a:b:c q") =
      .ok (mkReply .agent (.textContent (strL "[AGENT default] MCP server " ++ sqS ++
             strL "b:c" ++ sqS ++
             strL " not found in registry. Please check the server name and try again."))
            (strL "m1") (strL "c1"),
          [.logWrite (strL "c1") (strL "default") (strL "Local user to Agent default")
             (strL "#a:b:c q")])) ∧
    strL "[AGENT default] MCP server " ++ sqS ++ strL "b:c" ++ sqS ++
        strL " not found in registry. Please check the server name and try again." ≠
      usageHashText (strL "default") := ⟨rfl, by decide⟩

/-- C5 witness: the three amended clauses at `#ab`, `#ab cd` and `#a:b:c q`. -/
theorem c5_witness :
    (handle_message env0 bridge0 (mkLocalMsg "#ab") =
      .ok (mkReply .agent (.textContent (usageHashText env0.agent_id))
            (strL "m1") (pyConvId (some (strL "c1")) env0.fresh_uuid),
          [.logWrite (pyConvId (some (strL "c1")) env0.fresh_uuid)
             (currentPath env0 (mkLocalMsg "#ab"))
             (strL "Local user to Agent " ++ env0.agent_id) ('#' :: strL "ab")])) ∧
    (handle_message env0 bridge0 (mkLocalMsg "#ab cd") =
      .ok (mkReply .agent (.textContent (usageHashText env0.agent_id))
            (strL "m1") (pyConvId (some (strL "c1")) env0.fresh_uuid),
          [.logWrite (pyConvId (some (strL "c1")) env0.fresh_uuid)
             (currentPath env0 (mkLocalMsg "#ab cd"))
             (strL "Local user to Agent " ++ env0.agent_id)
             ('#' :: (strL "ab" ++ ' ' :: strL "cd"))])) ∧
    (handle_message env0 bridge0 (mkLocalMsg "#a:b:c q") =
      .ok ((mcpBranch env0 (strL "a") (strL "b:c") (strL "q")
              (pyConvId (some (strL "c1")) env0.fresh_uuid) (strL "m1")).1,
           .logWrite (pyConvId (some (strL "c1")) env0.fresh_uuid)
             (currentPath env0 (mkLocalMsg "#a:b:c q"))
             (strL "Local user to Agent " ++ env0.agent_id)
             ('#' :: ((strL "a" ++ ':' :: strL "b:c") ++ ' ' :: strL "q")) ::
           (mcpBranch env0 (strL "a") (strL "b:c") (strL "q")
              (pyConvId (some (strL "c1")) env0.fresh_uuid) (strL "m1")).2)) :=
  ⟨(c5_hash_classification env0 bridge0 (mkLocalMsg "#ab") rfl rfl).1
      (strL "ab") (by decide) (by decide),
   (c5_hash_classification env0 bridge0 (mkLocalMsg "#ab cd") rfl rfl).2.1
      (strL "ab") (strL "cd") (by decide) (by decide) (by decide),
   (c5_hash_classification env0 bridge0 (mkLocalMsg "#a:b:c q") rfl rfl).2.2
      (strL "a") (strL "b:c") (strL "q") (by decide) (by decide) (by decide) (by decide)⟩

/-- C6 (amended): whenever the first line of the body equals the start
marker, `handle_external_message` produces a reply — even when no `from`/`to`
fields decode — and `handle_message` returns that reply: the message is
treated as a peer delivery, with no fall-through to ordinary processing. -/
theorem c6_marker_handled (env : Env) (bridge : Bridge) (msg : Message)
    (t : Str) (rest : List Str)
    (hc : msg.content = .textContent t)
    (hline : splitAll '\n' t = startMarker :: rest) :
    ∃ r, handle_external_message env t (pyConvId msg.conversation_id env.fresh_uuid) msg =
        some r ∧
      handle_message env bridge msg = .ok r := by
  have hsw := marker_prefix_of_firstLine t rest hline
  have hdec : decodeEnvelope t =
      some ((rest.foldl decodeStep ⟨none, none, false, []⟩).fromA,
            (rest.foldl decodeStep ⟨none, none, false, []⟩).toA,
            rstrip (rest.foldl decodeStep ⟨none, none, false, []⟩).content) := by
    rw [decodeEnvelope, hline]
    simp [decodeLines]
  obtain ⟨r, hr⟩ : ∃ r,
      handle_external_message env t (pyConvId msg.conversation_id env.fresh_uuid) msg =
        some r := by
    simp only [handle_external_message, hdec]
    split_ifs <;> exact ⟨_, rfl⟩
  refine ⟨r, hr, ?_⟩
  simp [handle_message, hc, contentText, isTextContentB, hsw, hr]

/-- C6 counterexample: a body whose only line is the start marker decodes to
no `from`/`to` pair, yet the router treats it as a peer delivery — it
publishes `FROM None: ` to the UI relay and returns the received-by
acknowledgment — instead of falling through to ordinary processing. -/
theorem c6_counterexample :
    handle_message env0 bridge0 (mkLocalMsg "__EXTERNAL_MESSAGE__") =
      .ok (mkReply .agent (.textContent (strL "Message received by Agent default"))
            (strL "m1") (strL "c1"),
          [.uiSend (strL "FROM None: ") none (strL "c1")]) := rfl

/-- C6 witness: the amended statement at a two-line marker-led body. -/
theorem c6_witness :
    ∃ r, handle_external_message env0 (strL "__EXTERNAL_MESSAGE__\nhello")
        (pyConvId (some (strL "c1")) env0.fresh_uuid) (mkLocalMsg "__EXTERNAL_MESSAGE__\nhello") =
        some r ∧
      handle_message env0 bridge0 (mkLocalMsg "__EXTERNAL_MESSAGE__\nhello") = .ok r :=
  c6_marker_handled env0 bridge0 (mkLocalMsg "__EXTERNAL_MESSAGE__\nhello")
    (strL "__EXTERNAL_MESSAGE__\nhello") [strL "hello"] rfl (by decide)

/-- C10: every reply `handle_message` returns carries `parent_message_id`
equal to the inbound message id, and as conversation id the inbound
conversation id when non-empty, else the single freshly generated uuid. -/
theorem c10_reply_threading (env : Env) (bridge : Bridge) (msg : Message)
    (m : Message) (effs : List Effect)
    (h : handle_message env bridge msg = .ok (m, effs)) :
    m.parent_message_id = some msg.message_id ∧
    m.conversation_id = some (pyConvId msg.conversation_id env.fresh_uuid) := by
  suffices hs : ∃ r c, m = mkReply r c msg.message_id (pyConvId msg.conversation_id env.fresh_uuid) by
    obtain ⟨r, c, rfl⟩ := hs
    exact ⟨rfl, rfl⟩
  unfold handle_message at h
  split at h
  · exact absurd h (by simp)
  · simp only [] at h
    split at h
    · simp only [Except.ok.injEq, Prod.mk.injEq] at h
      exact ⟨_, _, h.1.symm⟩
    · split at h
      · split at h
        · rename_i r heq
          simp only [Except.ok.injEq] at h
          subst h
          obtain ⟨rr, c, hm⟩ := hem_shape env _ _ msg m effs heq
          exact ⟨rr, c, hm⟩
        · obtain ⟨c, hm⟩ := postExternal_shape env bridge msg _ _ _ m effs h
          exact ⟨.agent, c, hm⟩
      · obtain ⟨c, hm⟩ := postExternal_shape env bridge msg _ _ _ m effs h
        exact ⟨.agent, c, hm⟩

/-- C10 witness: the threading fields at a concrete plain-text exchange. -/
theorem c10_witness :
    (mkReply .agent (.textContent (strL "[AGENT default] ping")) (strL "m1")
        (strL "c1")).parent_message_id = some (mkLocalMsg "ping").message_id ∧
    (mkReply .agent (.textContent (strL "[AGENT default] ping")) (strL "m1")
        (strL "c1")).conversation_id =
      some (pyConvId (mkLocalMsg "ping").conversation_id env0.fresh_uuid) :=
  c10_reply_threading env0 bridge0 (mkLocalMsg "ping")
    (mkReply .agent (.textContent (strL "[AGENT default] ping")) (strL "m1") (strL "c1"))
    [.logWrite (strL "c1") (strL "default") (strL "Local user to Agent default") (strL "ping"),
     .claudeCall (strL "ping")]
    rfl

/-- C9 (amended): an I/O failure of the unguarded conversation-log append at
line 693 propagates out of `handle_message` as an exception — no reply is
returned for any local-terminal text message. -/
theorem c9_log_failure_fatal (env : Env) (bridge : Bridge) (msg : Message) (t : Str)
    (hc : msg.content = .textContent t)
    (hm : pyStartswith startMarker t = false)
    (hp : msg.metadata.is_from_peer = false)
    (hl : env.log_fails = true) :
    handle_message env bridge msg = .error .ioError := by
  simp [handle_message, hc, contentText, isTextContentB, hm, postExternal, hp,
    routeLocal, hl]

/-- C2: for a directed send `@target text` from the local terminal, the
router returns a success-shaped reply echoing the (possibly improved) text
even when the directory lookup of the target is absent — never an error
reply; when the body contains no space, it returns the usage-error reply. -/
theorem c2_directed_send (env : Env) (bridge : Bridge) (msg : Message)
    (hp : msg.metadata.is_from_peer = false) (hl : env.log_fails = false) :
    (∀ target rest, msg.content = .textContent ('@' :: (target ++ ' ' :: rest)) →
      ' ' ∉ target → env.lookup_agent target = none →
      ∃ effs, handle_message env bridge msg =
        .ok (mkReply .agent (.textContent (strL "[AGENT " ++ env.agent_id ++ strL "]: " ++
               (if env.improve_messages then improve_message_direct env bridge rest else rest)))
              msg.message_id (pyConvId msg.conversation_id env.fresh_uuid), effs)) ∧
    (∀ tail, msg.content = .textContent ('@' :: tail) → ' ' ∉ tail →
      ∃ effs, handle_message env bridge msg =
        .ok (mkReply .agent (.textContent (usageAtText env.agent_id))
              msg.message_id (pyConvId msg.conversation_id env.fresh_uuid), effs)) := by
  constructor
  · intro target rest hc hsp hlk
    have hsp2 : ' ' ∉ ('@' :: target) := by
      simp only [List.mem_cons, not_or]
      exact ⟨by decide, hsp⟩
    have hsplit : splitOnce ' ' ('@' :: (target ++ ' ' :: rest)) = ('@' :: target, some rest) := by
      have h := splitOnce_append ' ' ('@' :: target) rest hsp2
      simpa using h
    cases himp : env.improve_messages with
    | true =>
      have hmain : handle_message env bridge msg =
          .ok (mkReply .agent (.textContent (strL "[AGENT " ++ env.agent_id ++ strL "]: " ++
                 improve_message_direct env bridge rest))
                msg.message_id (pyConvId msg.conversation_id env.fresh_uuid),
               [.logWrite (pyConvId msg.conversation_id env.fresh_uuid) (currentPath env msg)
                  (strL "Local user to Agent " ++ env.agent_id) ('@' :: (target ++ ' ' :: rest)),
                .logWrite (pyConvId msg.conversation_id env.fresh_uuid) (currentPath env msg)
                  (strL "Claude " ++ env.agent_id) (improve_message_direct env bridge rest)]) := by
        simp [handle_message, hc, contentText, isTextContentB, marker_not_sw_at,
          postExternal, hp, routeLocal, hl, at_sw_at, hsplit, himp, send_to_agent, hlk]
      simp only [himp, if_true]
      exact ⟨_, hmain⟩
    | false =>
      have hmain : handle_message env bridge msg =
          .ok (mkReply .agent (.textContent (strL "[AGENT " ++ env.agent_id ++ strL "]: " ++ rest))
                msg.message_id (pyConvId msg.conversation_id env.fresh_uuid),
               [.logWrite (pyConvId msg.conversation_id env.fresh_uuid) (currentPath env msg)
                  (strL "Local user to Agent " ++ env.agent_id) ('@' :: (target ++ ' ' :: rest))]) := by
        simp [handle_message, hc, contentText, isTextContentB, marker_not_sw_at,
          postExternal, hp, routeLocal, hl, at_sw_at, hsplit, himp, send_to_agent, hlk]
      simp only [himp, Bool.false_eq_true, if_false]
      exact ⟨_, hmain⟩
  · intro tail hc hsp
    have hsp2 : ' ' ∉ ('@' :: tail) := by
      simp only [List.mem_cons, not_or]
      exact ⟨by decide, hsp⟩
    have hsplit : splitOnce ' ' ('@' :: tail) = ('@' :: tail, none) :=
      splitOnce_not_mem ' ' ('@' :: tail) hsp2
    have hmain : handle_message env bridge msg =
        .ok (mkReply .agent (.textContent (usageAtText env.agent_id))
              msg.message_id (pyConvId msg.conversation_id env.fresh_uuid),
             [.logWrite (pyConvId msg.conversation_id env.fresh_uuid) (currentPath env msg)
                (strL "Local user to Agent " ++ env.agent_id) ('@' :: tail)]) := by
      simp [handle_message, hc, contentText, isTextContentB, marker_not_sw_at,
        postExternal, hp, routeLocal, hl, at_sw_at, hsplit]
    exact ⟨_, hmain⟩

/-- C2 witness: `@bob hello` with an empty registry and the body `@bob`
(no space), at the concrete environment. -/
theorem c2_witness :
    (∃ effs, handle_message env0 bridge0 (mkLocalMsg "@bob hello") =
      .ok (mkReply .agent (.textContent (strL "[AGENT " ++ env0.agent_id ++ strL "]: " ++
             (if env0.improve_messages then
                improve_message_direct env0 bridge0 (strL "hello")
              else strL "hello")))
            (strL "m1") (pyConvId (some (strL "c1")) env0.fresh_uuid), effs)) ∧
    (∃ effs, handle_message env0 bridge0 (mkLocalMsg "@bob") =
      .ok (mkReply .agent (.textContent (usageAtText env0.agent_id))
            (strL "m1") (pyConvId (some (strL "c1")) env0.fresh_uuid), effs)) :=
  ⟨(c2_directed_send env0 bridge0 (mkLocalMsg "@bob hello") rfl rfl).1
      (strL "bob") (strL "hello") rfl (by decide) rfl,
   (c2_directed_send env0 bridge0 (mkLocalMsg "@bob") rfl rfl).2
      (strL "bob") rfl (by decide)⟩

/-- C9 counterexample: a failing log device turns a plain local message into
an unhandled `IOError` instead of a reply. -/
theorem c9_counterexample :
    handle_message { env0 with log_fails := true } bridge0 (mkLocalMsg "hello") =
      .error .ioError := rfl

/-- C9 witness: the amended statement applied at a concrete message. -/
theorem c9_witness :
    handle_message { env0 with log_fails := true } bridge0 (mkLocalMsg "hi") =
      .error .ioError :=
  c9_log_failure_fatal { env0 with log_fails := true } bridge0 (mkLocalMsg "hi")
    (strL "hi") rfl rfl rfl rfl

end Nanda
